import Mathlib

/-!
Verification of the tabular view engine of the political-dashboard
repository (file `command02.py`).

A pandas `DataFrame` is embedded as an ordered list of named columns;
each column is a list of cells.  A cell is either missing (`NaN` in
pandas), a rational number, or a string (the label columns hold
strings).  The label column of a sheet is its first column.

The functions below are direct translations of:
  * `PoliticalDashboard._load_data`            → `loadData`
  * `PoliticalDashboard._get_common_countries` → `getCommonCountries`
  * `PoliticalDashboard._create_most_important_chart`
                                               → `createMostImportantChart`
  * `PoliticalDashboard._create_comparison_issues_chart`
                                               → `createComparisonIssuesChart`
  * `PoliticalDashboard._create_comparison_orientation_chart`
                                               → `createComparisonOrientationChart`
  * the `DataFrame.pivot` call of `_render_compare_countries`
                                               → `pivotTable`
-/

/-- A cell of a pandas data frame: missing (`NaN`), numeric, or string. -/
inductive Cell where
  | na : Cell
  | num : ℚ → Cell
  | str : String → Cell
deriving DecidableEq

/-- A data frame: an ordered list of named columns. -/
structure Table where
  cols : List (String × List Cell)
deriving DecidableEq

/-- The ordered list of column names, `df.columns`. -/
def Table.colNames (t : Table) : List String :=
  t.cols.map Prod.fst

/-- `df[name]`: the first column bearing `name`, if any. -/
def findCol (t : Table) (name : String) : Option (String × List Cell) :=
  t.cols.find? (fun c => c.1 == name)

/-- The numeric content of a cell, if any. -/
def cellNum : Cell → Option ℚ
  | Cell.num q => some q
  | _ => none

/-- `series.max()`: the maximum over the numeric cells, skipping
missing values; `none` when no numeric cell is present. -/
def colMax : List Cell → Option ℚ
  | [] => none
  | c :: cs =>
    match cellNum c, colMax cs with
    | some q, some m => some (max q m)
    | some q, none => some q
    | none, m => m

/-- `series / 100` applied cellwise; missing values stay missing. -/
def scaleCell : Cell → Cell
  | Cell.num q => Cell.num (q / 100)
  | c => c

/-- One step of the normalisation loop of `_load_data`: if the column
maximum exceeds 1, divide every cell by 100, else leave the column. -/
def normalizeCol (cells : List Cell) : List Cell :=
  match colMax cells with
  | some m => if m > 1 then cells.map scaleCell else cells
  | none => cells

/-- The normalisation loop `for col in df.columns[1:]: ...` of
`_load_data`: every column but the first is rescaled when its maximum
exceeds 1. -/
def normalizeTable (t : Table) : Table :=
  match t.cols with
  | [] => ⟨[]⟩
  | c0 :: rest => ⟨c0 :: rest.map (fun c => (c.1, normalizeCol c.2))⟩

/-- A column is entirely missing. -/
def allNa (cells : List Cell) : Bool :=
  cells.all (fun c => c == Cell.na)

/-- `df.dropna(axis=1, how='all')`: drop the columns all of whose
cells are missing. -/
def dropEmptyCols (t : Table) : Table :=
  ⟨t.cols.filter (fun c => !(allNa c.2))⟩

/-- The errors surfaced via `st.error` + `st.stop` in the source. -/
inductive LoadError where
  | schemaError : String → LoadError
  | noCommonCountries : LoadError
deriving DecidableEq

/-- `_load_data`, starting from the two parsed sheets: validate the
required label columns, drop all-empty columns, then normalise every
column but the first of each sheet. -/
def loadData (dfMostIm dfSheet2 : Table) : Except LoadError (Table × Table) :=
  if ¬ ("Most Important Problem" ∈ dfMostIm.colNames) then
    Except.error (LoadError.schemaError "Most Important Problem")
  else if ¬ ("Left-Right Orientation" ∈ dfSheet2.colNames) then
    Except.error (LoadError.schemaError "Left-Right Orientation")
  else
    Except.ok (normalizeTable (dropEmptyCols dfMostIm),
               normalizeTable (dropEmptyCols dfSheet2))

/-- `_get_common_countries`: the sorted intersection of the two
sheets' column names, label (first) columns excluded; empty
intersection is a hard failure. -/
def getCommonCountries (t1 t2 : Table) : Except LoadError (List String) :=
  let countries :=
    List.insertionSort (· ≤ ·)
      ((t1.colNames.tail.filter (fun c => decide (c ∈ t2.colNames.tail))).dedup)
  if countries.isEmpty then Except.error LoadError.noCommonCountries
  else Except.ok countries

/-- Keep the entries of `cells` whose position carries `true` in
`mask`: the effect of a boolean row mask on one column. -/
def applyMask (mask : List Bool) (cells : List Cell) : List Cell :=
  ((mask.zip cells).filter (fun p => p.1)).map (fun p => p.2)

/-- `df[df[labName].isin(selected)]`: keep the rows whose cell in the
column named `labName` belongs to `selected`.  `none` when the column
is absent (pandas `KeyError`). -/
def filterIsin (t : Table) (labName : String) (selected : List Cell) : Option Table :=
  (findCol t labName).map (fun lab =>
    let mask := lab.2.map (fun c => decide (c ∈ selected))
    ⟨t.cols.map (fun c => (c.1, applyMask mask c.2))⟩)

/-- `df[[n1, n2, ...]]`: one column per requested name, in request
order; `none` when a name is absent. -/
def selectCols (t : Table) (names : List String) : Option Table :=
  (names.mapM (fun n => findCol t n)).map (fun cs => ⟨cs⟩)

/-- Stack the value columns one after the other against the id cells:
the core of `DataFrame.melt`. -/
def meltCols (idCells : List Cell) : List (String × List Cell) → List (Cell × String × Cell)
  | [] => []
  | c :: rest =>
    (idCells.zip c.2).map (fun p => (p.1, c.1, p.2)) ++ meltCols idCells rest

/-- `df.melt(id_vars=idName, var_name="Country",
value_name="Proportion")`: rows `(id cell, value column name, cell)`,
stacked value column after value column. -/
def meltId (idName : String) (cols : List (String × List Cell)) :
    Option (List (Cell × String × Cell)) :=
  (cols.find? (fun c => c.1 == idName)).map (fun idc =>
    meltCols idc.2 (cols.filter (fun c => !(c.1 == idName))))

/-- `filtered_df[filtered_df[labName] == issue][country].iloc[0]`:
the `country` cell of the first row whose label cell equals `issue`. -/
def lookupProp (t : Table) (labName : String) (issue : Cell) (country : String) :
    Option Cell := do
  let lab ← findCol t labName
  let col ← findCol t country
  let row ← (lab.2.zip col.2).find? (fun q => q.1 == issue)
  pure row.2

/-- `abs(prop1 - prop2) > 0.1` on two looked-up cells; missing or
non-numeric cells never fire (as NaN comparisons in pandas). -/
def sigDiff : Option Cell → Option Cell → Bool
  | some (Cell.num a), some (Cell.num b) => decide (|a - b| > 1 / 10)
  | _, _ => false

/-- The annotation loop of `_create_comparison_issues_chart`: the
issues of the filtered table, in row order, whose two proportions
differ by more than 0.1. -/
def significantIssues (filtered : Table) (c1 c2 : String) : List Cell :=
  match findCol filtered "Most Important Problem" with
  | none => []
  | some lab =>
    lab.2.filter (fun issue =>
      sigDiff (lookupProp filtered "Most Important Problem" issue c1)
              (lookupProp filtered "Most Important Problem" issue c2))

/-- The shared long-format pipeline of the two comparison chart
functions: filter the rows to the selected labels, take the label
column together with the two country columns, and melt. -/
def comparisonLong (labName : String) (df : Table) (c1 c2 : String)
    (selected : List Cell) : Option (List (Cell × String × Cell)) := do
  let filtered ← filterIsin df labName selected
  let sub ← selectCols filtered [labName, c1, c2]
  meltId labName sub.cols

/-- `_create_comparison_issues_chart`: the long-format comparison
table, together with the list of issues annotated as significantly
different. -/
def createComparisonIssuesChart (df : Table) (c1 c2 : String)
    (selected : List Cell) : Option (List Cell × List (Cell × String × Cell)) := do
  let filtered ← filterIsin df "Most Important Problem" selected
  let compareDf ← comparisonLong "Most Important Problem" df c1 c2 selected
  pure (significantIssues filtered c1 c2, compareDf)

/-- `_create_comparison_orientation_chart`: the long-format comparison
table for the orientation sheet (no annotation loop there). -/
def createComparisonOrientationChart (df : Table) (c1 c2 : String)
    (selected : List Cell) : Option (List (Cell × String × Cell)) :=
  comparisonLong "Left-Right Orientation" df c1 c2 selected

/-- `_create_most_important_chart`: filter the rows to the selected
issues; the chart itself needs the country column to exist (pandas
raises otherwise), and the filtered frame is returned. -/
def createMostImportantChart (df : Table) (country : String)
    (selected : List Cell) : Option Table := do
  let filtered ← filterIsin df "Most Important Problem" selected
  let _ ← findCol filtered country
  pure filtered

/-- `compare_df.pivot(index=..., columns="Country",
values="Proportion")` as an association from (label, country) keys to
cells; pandas raises when a (index, columns) pair repeats, rendered
here as `none`. -/
def pivotTable (rows : List (Cell × String × Cell)) :
    Option (List ((Cell × String) × Cell)) :=
  if (rows.map (fun r => (r.1, r.2.1))).Nodup then
    some (rows.map (fun r => ((r.1, r.2.1), r.2.2)))
  else none

/-- Reading one cell of the pivoted wide table. -/
def wideLookup (w : List ((Cell × String) × Cell)) (key : Cell × String) :
    Option Cell :=
  (w.find? (fun e => e.1 == key)).map (fun e => e.2)

/-- Every numeric cell lies in `[0, 1]`; missing cells are vacuously
fine, strings are not tolerated. -/
def cellIn01 : Cell → Bool
  | Cell.na => true
  | Cell.num q => decide (0 ≤ q ∧ q ≤ 1)
  | Cell.str _ => false

/-- Every numeric cell lies in `[0, 100]`; missing cells are vacuously
fine, strings are not tolerated. -/
def cellIn0100 : Cell → Bool
  | Cell.na => true
  | Cell.num q => decide (0 ≤ q ∧ q ≤ 100)
  | Cell.str _ => false

/-- Numeric cells do not exceed 100 (any non-numeric cell allowed). -/
def cellLe100 : Cell → Bool
  | Cell.num q => decide (q ≤ 100)
  | _ => true

/-- All cells of all non-label (non-first) columns satisfy `p`. -/
def tailCellsSat (p : Cell → Bool) (t : Table) : Bool :=
  t.cols.tail.all (fun c => c.2.all p)

/-- The first column of `t` is named `n` and has at least one
non-missing cell (so `dropna(axis=1, how='all')` keeps it). -/
def headColOk (t : Table) (n : String) : Bool :=
  match t.cols with
  | [] => false
  | c :: _ => c.1 == n && !(allNa c.2)

/-! ### Sample tables (used as witnesses), following the end-to-end
example of the specification -/

/-- A problems sheet mixing an already-fractional column (`DE`) with a
percentage-scale column (`FR`). -/
def sampleMostIm : Table :=
  ⟨[("Most Important Problem", [Cell.str "Inflation", Cell.str "Crime"]),
    ("DE", [Cell.num (1/2), Cell.num (1/5)]),
    ("FR", [Cell.num 30, Cell.num 10])]⟩

/-- An orientation sheet mixing scales as well. -/
def sampleSheet2 : Table :=
  ⟨[("Left-Right Orientation", [Cell.str "Left", Cell.str "Right"]),
    ("DE", [Cell.num (2/5), Cell.num (3/5)]),
    ("FR", [Cell.num 55, Cell.num 45])]⟩

/-- A problems sheet whose required label column is present but holds
no values at all. -/
def mipAllNaTable : Table :=
  ⟨[("Most Important Problem", [Cell.na, Cell.na]),
    ("DE", [Cell.num (1/2), Cell.num (1/5)])]⟩

/-! ### Helper lemmas -/

theorem le_colMax {cells : List Cell} {q : ℚ} (h : Cell.num q ∈ cells) :
    ∃ m, colMax cells = some m ∧ q ≤ m := by
  induction cells with
  | nil => cases h
  | cons c cs ih =>
    rcases List.mem_cons.mp h with rfl | hmem
    · cases hmax : colMax cs with
      | none => exact ⟨q, by simp [colMax, cellNum, hmax], le_refl q⟩
      | some m => exact ⟨max q m, by simp [colMax, cellNum, hmax], le_max_left q m⟩
    · obtain ⟨m, hm, hq⟩ := ih hmem
      cases c with
      | na => exact ⟨m, by simp [colMax, cellNum, hm], hq⟩
      | str s => exact ⟨m, by simp [colMax, cellNum, hm], hq⟩
      | num p => exact ⟨max p m, by simp [colMax, cellNum, hm], le_trans hq (le_max_right p m)⟩

theorem colMax_le {cells : List Cell} {x : ℚ}
    (h : ∀ q : ℚ, Cell.num q ∈ cells → q ≤ x) :
    ∀ m, colMax cells = some m → m ≤ x := by
  induction cells with
  | nil => intro m hm; simp [colMax] at hm
  | cons c cs ih =>
    intro m hm
    have hx : ∀ q : ℚ, Cell.num q ∈ cs → q ≤ x :=
      fun q hq => h q (List.mem_cons_of_mem c hq)
    cases c with
    | na =>
      simp [colMax, cellNum] at hm
      exact ih hx m hm
    | str s =>
      simp [colMax, cellNum] at hm
      exact ih hx m hm
    | num p =>
      have hp : p ≤ x := h p (List.mem_cons_self _ _)
      cases hmax : colMax cs with
      | none => simp [colMax, cellNum, hmax] at hm; exact hm ▸ hp
      | some m2 =>
        simp [colMax, cellNum, hmax] at hm
        subst hm
        exact max_le hp (ih hx m2 hmax)

theorem colMax_map_scale (cells : List Cell) :
    colMax (cells.map scaleCell) = (colMax cells).map (fun m => m / 100) := by
  induction cells with
  | nil => simp [colMax]
  | cons c cs ih =>
    cases c with
    | na =>
      simp only [List.map_cons, colMax, cellNum, scaleCell] at ih ⊢
      exact ih
    | str s =>
      simp only [List.map_cons, colMax, cellNum, scaleCell] at ih ⊢
      exact ih
    | num q =>
      simp only [List.map_cons, colMax, cellNum, scaleCell] at ih ⊢
      rw [ih]
      cases hmax : colMax cs with
      | none => rfl
      | some m =>
        show some (q / 100 ⊔ m / 100) = some ((q ⊔ m) / 100)
        rw [max_div_div_right (by norm_num : (0:ℚ) ≤ 100)]

theorem normalizeCol_unit {cells : List Cell}
    (h : ∀ c ∈ cells, cellIn0100 c = true) :
    ∀ c ∈ normalizeCol cells, cellIn01 c = true := by
  intro c hc
  cases hmax : colMax cells with
  | none =>
    simp only [normalizeCol, hmax] at hc
    have := h c hc
    cases c with
    | na => rfl
    | str s => simp [cellIn0100] at this
    | num q =>
      obtain ⟨m, hm, _⟩ := le_colMax hc
      rw [hmax] at hm; cases hm
  | some m =>
    simp only [normalizeCol, hmax] at hc
    by_cases hm1 : m > 1
    · rw [if_pos hm1] at hc
      obtain ⟨d, hd, rfl⟩ := List.mem_map.mp hc
      have hd100 := h d hd
      cases d with
      | na => rfl
      | str s => simp [cellIn0100] at hd100
      | num q =>
        simp only [cellIn0100, decide_eq_true_eq] at hd100
        simp only [scaleCell, cellIn01, decide_eq_true_eq]
        constructor
        · exact div_nonneg hd100.1 (by norm_num)
        · rw [div_le_one (by norm_num : (0:ℚ) < 100)]; exact hd100.2
    · rw [if_neg hm1] at hc
      have := h c hc
      cases c with
      | na => rfl
      | str s => simp [cellIn0100] at this
      | num q =>
        simp only [cellIn0100, decide_eq_true_eq] at this
        obtain ⟨m2, hm2, hq⟩ := le_colMax hc
        rw [hmax] at hm2
        injection hm2 with hm2
        subst hm2
        simp only [cellIn01, decide_eq_true_eq]
        exact ⟨this.1, le_trans hq (not_lt.mp hm1)⟩

theorem normalizeCol_idem {cells : List Cell}
    (h : ∀ q : ℚ, Cell.num q ∈ cells → q ≤ 100) :
    normalizeCol (normalizeCol cells) = normalizeCol cells := by
  cases hmax : colMax cells with
  | none => simp only [normalizeCol, hmax]
  | some m =>
    by_cases hm1 : m > 1
    · have h1 : normalizeCol cells = cells.map scaleCell := by
        simp only [normalizeCol, hmax, if_pos hm1]
      have hmax2 : colMax (cells.map scaleCell) = some (m / 100) := by
        rw [colMax_map_scale, hmax]; rfl
      have hle : m ≤ 100 := colMax_le h m hmax
      have hnot : ¬ (m / 100 > 1) := by
        rw [not_lt, div_le_one (by norm_num : (0:ℚ) < 100)]
        exact hle
      rw [h1]
      simp only [normalizeCol, hmax2, if_neg hnot]
    · have h1 : normalizeCol cells = cells := by
        simp only [normalizeCol, hmax, if_neg hm1]
      rw [h1, h1]

/-- Normalisation of the non-label columns, also after the empty-column
drop, keeps values in the unit interval provided the input cells lie in
the documented `[0, 100]` domain and the leading label column survives. -/
theorem norm_drop_unit {t : Table} {n : String}
    (hh : headColOk t n = true)
    (hr : tailCellsSat cellIn0100 t = true) :
    tailCellsSat cellIn01 (normalizeTable (dropEmptyCols t)) = true := by
  rcases t with ⟨cols⟩
  cases cols with
  | nil => simp [headColOk] at hh
  | cons c0 rest =>
    simp only [headColOk, Bool.and_eq_true, beq_iff_eq, Bool.not_eq_true'] at hh
    simp only [tailCellsSat, List.all_eq_true, List.tail_cons] at hr
    have hdrop : dropEmptyCols ⟨c0 :: rest⟩ =
        ⟨c0 :: rest.filter (fun c => !(allNa c.2))⟩ := by
      simp [dropEmptyCols, List.filter_cons, hh.2]
    rw [hdrop]
    simp only [normalizeTable, tailCellsSat, List.tail_cons, List.all_eq_true]
    intro c hc
    obtain ⟨d, hd, rfl⟩ := List.mem_map.mp hc
    have hdrest : d ∈ rest := (List.mem_filter.mp hd).1
    have hall := hr d hdrest
    simp only [List.all_eq_true] at hall ⊢
    exact fun x hx => normalizeCol_unit hall x hx

/-- C1. Every table returned by the loader has all its non-label cell
values in `[0, 1]`, for inputs in the backing-file domain (each
non-label cell fractional in `[0, 1]` or percentage in `[0, 100]`,
mixed freely across columns), with the leading label columns present
and not entirely empty. -/
theorem loader_output_in_unit_interval (t1 t2 : Table)
    (h1 : headColOk t1 "Most Important Problem" = true)
    (h2 : headColOk t2 "Left-Right Orientation" = true)
    (hr1 : tailCellsSat cellIn0100 t1 = true)
    (hr2 : tailCellsSat cellIn0100 t2 = true) :
    ∃ a b, loadData t1 t2 = Except.ok (a, b) ∧
      tailCellsSat cellIn01 a = true ∧ tailCellsSat cellIn01 b = true := by
  have hm1 : "Most Important Problem" ∈ t1.colNames := by
    rcases t1 with ⟨cols⟩
    cases cols with
    | nil => simp [headColOk] at h1
    | cons c0 rest =>
      simp only [headColOk, Bool.and_eq_true, beq_iff_eq] at h1
      simp [Table.colNames, h1.1.symm]
  have hm2 : "Left-Right Orientation" ∈ t2.colNames := by
    rcases t2 with ⟨cols⟩
    cases cols with
    | nil => simp [headColOk] at h2
    | cons c0 rest =>
      simp only [headColOk, Bool.and_eq_true, beq_iff_eq] at h2
      simp [Table.colNames, h2.1.symm]
  refine ⟨_, _, ?_, norm_drop_unit h1 hr1, norm_drop_unit h2 hr2⟩
  simp [loadData, hm1, hm2]

unseal Rat.inv Rat.mul Rat.add Rat.sub Rat.ofScientific in
/-- C1, witnessed on the mixed-scale sample sheets. -/
theorem loader_output_in_unit_interval_witness :
    ∃ a b, loadData sampleMostIm sampleSheet2 = Except.ok (a, b) ∧
      tailCellsSat cellIn01 a = true ∧ tailCellsSat cellIn01 b = true :=
  loader_output_in_unit_interval sampleMostIm sampleSheet2
    (by decide) (by decide) (by decide) (by decide)

/-- C6. Normalisation is idempotent on tables whose numeric non-label
cells do not exceed 100 (the documented backing-file domain): a second
application changes no cell. -/
theorem normalize_idempotent (t : Table)
    (h : tailCellsSat cellLe100 t = true) :
    normalizeTable (normalizeTable t) = normalizeTable t := by
  rcases t with ⟨cols⟩
  cases cols with
  | nil => rfl
  | cons c0 rest =>
    simp only [tailCellsSat, List.all_eq_true, List.tail_cons] at h
    simp only [normalizeTable, List.map_map, Table.mk.injEq, List.cons.injEq, true_and]
    apply List.map_congr_left
    intro c hc
    simp only [Function.comp]
    have hall := h c hc
    simp only [List.all_eq_true] at hall
    have hle : ∀ q : ℚ, Cell.num q ∈ c.2 → q ≤ 100 := by
      intro q hq
      have := hall _ hq
      simpa [cellLe100] using this
    rw [normalizeCol_idem hle]

unseal Rat.inv Rat.mul Rat.add Rat.sub Rat.ofScientific in
/-- C6, witnessed on the mixed-scale sample sheet. -/
theorem normalize_idempotent_witness :
    normalizeTable (normalizeTable sampleMostIm) = normalizeTable sampleMostIm :=
  normalize_idempotent sampleMostIm (by decide)

/-- C9. The loader signals `SchemaError` exactly when a required label
column is missing from its sheet, and returns both (cleaned,
normalised) tables when both label columns are present. -/
theorem loader_schema_error_iff (t1 t2 : Table) :
    ((∃ s, loadData t1 t2 = Except.error (LoadError.schemaError s)) ↔
      ("Most Important Problem" ∉ t1.colNames ∨
       "Left-Right Orientation" ∉ t2.colNames)) ∧
    ("Most Important Problem" ∈ t1.colNames →
     "Left-Right Orientation" ∈ t2.colNames →
      loadData t1 t2 =
        Except.ok (normalizeTable (dropEmptyCols t1),
                   normalizeTable (dropEmptyCols t2))) := by
  by_cases h1 : "Most Important Problem" ∈ t1.colNames <;>
    by_cases h2 : "Left-Right Orientation" ∈ t2.colNames <;>
    simp [loadData, h1, h2]

/-- C9, witnessed on the sample sheets: both label columns present, so
the loader returns both tables. -/
theorem loader_schema_error_iff_witness :
    loadData sampleMostIm sampleSheet2 =
      Except.ok (normalizeTable (dropEmptyCols sampleMostIm),
                 normalizeTable (dropEmptyCols sampleSheet2)) :=
  (loader_schema_error_iff sampleMostIm sampleSheet2).2 (by decide) (by decide)

unseal Rat.inv Rat.mul Rat.add Rat.sub Rat.ofScientific in
/-- C10. Validation happens before the empty-column drop: on a sheet
whose label column is present but holds no values, the loader signals
no schema error yet returns a table without that label column. -/
theorem validation_precedes_column_drop :
    ∃ a b, loadData mipAllNaTable sampleSheet2 = Except.ok (a, b) ∧
      "Most Important Problem" ∉ a.colNames := by
  refine ⟨_, _, rfl, ?_⟩
  decide

/-- C4. The country index is the set intersection of the two tables'
non-label column names, strictly sorted ascending; the computation
fails with `NoCommonCountries` exactly when the intersection is
empty. -/
theorem common_countries_spec (t1 t2 : Table) :
    (∀ l, getCommonCountries t1 t2 = Except.ok l →
       l.Sorted (· < ·) ∧
       ∀ c, c ∈ l ↔ c ∈ t1.colNames.tail ∧ c ∈ t2.colNames.tail) ∧
    (getCommonCountries t1 t2 = Except.error LoadError.noCommonCountries ↔
       ¬ ∃ c, c ∈ t1.colNames.tail ∧ c ∈ t2.colNames.tail) := by
  set base :=
    (t1.colNames.tail.filter (fun c => decide (c ∈ t2.colNames.tail))).dedup with hbase
  have hperm : List.Perm (List.insertionSort (· ≤ ·) base) base :=
    List.perm_insertionSort _ base
  have hnd : (List.insertionSort (· ≤ ·) base).Nodup :=
    hperm.nodup_iff.mpr (List.nodup_dedup _)
  have hsorted : (List.insertionSort (· ≤ ·) base).Sorted (· < ·) :=
    (List.sorted_insertionSort _ base).lt_of_le hnd
  have hmem : ∀ c, c ∈ List.insertionSort (· ≤ ·) base ↔
      c ∈ t1.colNames.tail ∧ c ∈ t2.colNames.tail := by
    intro c
    rw [hperm.mem_iff, hbase, List.mem_dedup, List.mem_filter, decide_eq_true_iff]
  constructor
  · intro l hl
    unfold getCommonCountries at hl
    by_cases he : (List.insertionSort (· ≤ ·) base).isEmpty
    · rw [if_pos he] at hl; cases hl
    · rw [if_neg he] at hl
      injection hl with hl
      subst hl
      exact ⟨hsorted, hmem⟩
  · unfold getCommonCountries
    by_cases he : (List.insertionSort (· ≤ ·) base).isEmpty
    · rw [if_pos he]
      simp only [true_iff]
      rintro ⟨c, hc1, hc2⟩
      have : c ∈ List.insertionSort (· ≤ ·) base := (hmem c).mpr ⟨hc1, hc2⟩
      rw [List.isEmpty_iff.mp he] at this
      cases this
    · rw [if_neg he]
      simp only [reduceCtorEq, false_iff, not_not]
      have hne : List.insertionSort (· ≤ ·) base ≠ [] :=
        fun h => he (List.isEmpty_iff.mpr h)
      rcases List.exists_mem_of_ne_nil _ hne with ⟨c, hc⟩
      exact ⟨c, (hmem c).mp hc⟩

/-- C4, witnessed on the sample sheets: the common countries are
exactly the sorted common columns. -/
theorem common_countries_spec_witness :
    (∀ l, getCommonCountries sampleMostIm sampleSheet2 = Except.ok l →
       l.Sorted (· < ·) ∧
       ∀ c, c ∈ l ↔ c ∈ sampleMostIm.colNames.tail ∧
                    c ∈ sampleSheet2.colNames.tail) ∧
    (getCommonCountries sampleMostIm sampleSheet2 =
        Except.error LoadError.noCommonCountries ↔
       ¬ ∃ c, c ∈ sampleMostIm.colNames.tail ∧
              c ∈ sampleSheet2.colNames.tail) :=
  common_countries_spec sampleMostIm sampleSheet2

theorem applyMask_all_false {mask : List Bool}
    (h : ∀ b ∈ mask, b = false) (cells : List Cell) :
    applyMask mask cells = [] := by
  unfold applyMask
  rw [List.filter_eq_nil_iff.mpr, List.map_nil]
  intro p hp
  have hb : p.1 ∈ mask := (List.of_mem_zip hp).1
  simp [h p.1 hb]

theorem findCol_map_cells (cols : List (String × List Cell))
    (g : List Cell → List Cell) (n : String) :
    findCol ⟨cols.map (fun c => (c.1, g c.2))⟩ n =
      (findCol ⟨cols⟩ n).map (fun c => (c.1, g c.2)) := by
  unfold findCol
  simp only [List.find?_map]
  rfl

/-- C8. With an empty selected-label set, single-country extraction
returns a table all of whose columns are empty (zero rows), as a
result and not an error. -/
theorem extract_single_empty_selection (df : Table) (country : String)
    (hm : (findCol df "Most Important Problem").isSome = true)
    (hc : (findCol df country).isSome = true) :
    ∃ t, createMostImportantChart df country [] = some t ∧
      t.cols.all (fun c => c.2.isEmpty) = true := by
  obtain ⟨lab, hlab⟩ := Option.isSome_iff_exists.mp hm
  obtain ⟨col, hcol⟩ := Option.isSome_iff_exists.mp hc
  have hmask : ∀ cells : List Cell,
      applyMask (lab.2.map (fun c => decide (c ∈ ([] : List Cell)))) cells = [] := by
    intro cells
    apply applyMask_all_false
    intro b hb
    obtain ⟨c, _, rfl⟩ := List.mem_map.mp hb
    simp
  have hfil : filterIsin df "Most Important Problem" ([] : List Cell) =
      some ⟨df.cols.map (fun c => (c.1, ([] : List Cell)))⟩ := by
    rw [filterIsin, hlab, Option.map_some']
    congr 1
    refine congrArg Table.mk (List.map_congr_left ?_)
    intro c _
    rw [hmask c.2]
  have hfc : findCol ⟨df.cols.map (fun c => (c.1, ([] : List Cell)))⟩ country =
      some (col.1, ([] : List Cell)) := by
    have := findCol_map_cells df.cols (fun _ => ([] : List Cell)) country
    rw [this, hcol, Option.map_some']
  refine ⟨⟨df.cols.map (fun c => (c.1, ([] : List Cell)))⟩, ?_, ?_⟩
  · simp [createMostImportantChart, hfil, hfc]
  · rw [List.all_map]
    apply List.all_eq_true.mpr
    intro c _
    rfl

/-- C8, witnessed on the sample sheet with country `DE`. -/
theorem extract_single_empty_selection_witness :
    ∃ t, createMostImportantChart sampleMostIm "DE" [] = some t ∧
      t.cols.all (fun c => c.2.isEmpty) = true :=
  extract_single_empty_selection sampleMostIm "DE" (by decide) (by decide)

/-! ### The long-format comparison pipeline -/

theorem applyMask_map (p : Cell → Bool) :
    ∀ (labs v : List Cell), v.length = labs.length →
      applyMask (labs.map p) v =
        ((labs.zip v).filter (fun q => p q.1)).map (fun q => q.2) := by
  intro labs
  induction labs with
  | nil =>
    intro v hv
    rw [List.length_nil, List.length_eq_zero] at hv
    subst hv; rfl
  | cons a labs ih =>
    intro v hv
    cases v with
    | nil => cases hv
    | cons b v =>
      simp only [List.length_cons, Nat.succ.injEq] at hv
      have ihv := ih v hv
      unfold applyMask at ihv ⊢
      simp only [List.map_cons, List.zip_cons_cons, List.filter_cons]
      cases hpa : p a <;> simp [hpa, ihv]

theorem applyMask_map_self (p : Cell → Bool) (labs : List Cell) :
    applyMask (labs.map p) labs = labs.filter p := by
  induction labs with
  | nil => rfl
  | cons a labs ih =>
    unfold applyMask at ih ⊢
    simp only [List.map_cons, List.zip_cons_cons, List.filter_cons]
    cases hpa : p a <;> simp [hpa, ih]

theorem filterZip_map_fst (p : Cell → Bool) :
    ∀ (labs v : List Cell), v.length = labs.length →
      ((labs.zip v).filter (fun q => p q.1)).map (fun q => q.1) = labs.filter p := by
  intro labs
  induction labs with
  | nil =>
    intro v hv
    rw [List.length_nil, List.length_eq_zero] at hv
    subst hv; rfl
  | cons a labs ih =>
    intro v hv
    cases v with
    | nil => cases hv
    | cons b v =>
      simp only [List.length_cons, Nat.succ.injEq] at hv
      simp only [List.zip_cons_cons, List.filter_cons]
      cases hpa : p a <;> simp [hpa, ih v hv]

theorem zip_map_fst_snd_eq {α β : Type} :
    ∀ (l : List (α × β)), (l.map Prod.fst).zip (l.map Prod.snd) = l := by
  intro l
  induction l with
  | nil => rfl
  | cons e l ih => simp only [List.map_cons, List.zip_cons_cons, ih]

theorem comparisonLong_eq (labName : String) (df : Table) (c1 c2 : String)
    (selected : List Cell) (labs v1 v2 : List Cell)
    (hm : findCol df labName = some (labName, labs))
    (h1 : findCol df c1 = some (c1, v1))
    (h2 : findCol df c2 = some (c2, v2))
    (hne1 : c1 ≠ labName) (hne2 : c2 ≠ labName)
    (hl1 : v1.length = labs.length) (hl2 : v2.length = labs.length) :
    comparisonLong labName df c1 c2 selected = some
      ((((labs.zip v1).filter (fun q => decide (q.1 ∈ selected))).map
          (fun q => (q.1, c1, q.2))) ++
       (((labs.zip v2).filter (fun q => decide (q.1 ∈ selected))).map
          (fun q => (q.1, c2, q.2)))) := by
  set p : Cell → Bool := fun c => decide (c ∈ selected) with hp
  set mask := labs.map p with hmask
  set g : List Cell → List Cell := applyMask mask with hg
  have hfil : filterIsin df labName selected =
      some ⟨df.cols.map (fun c => (c.1, g c.2))⟩ := by
    rw [filterIsin, hm, Option.map_some']
  have hfc : ∀ n cells, findCol df n = some (n, cells) →
      findCol ⟨df.cols.map (fun c => (c.1, g c.2))⟩ n = some (n, g cells) := by
    intro n cells hn
    rw [findCol_map_cells df.cols g n]
    show (findCol df n).map _ = _
    rw [hn, Option.map_some']
  have hsel : selectCols ⟨df.cols.map (fun c => (c.1, g c.2))⟩ [labName, c1, c2] =
      some ⟨[(labName, g labs), (c1, g v1), (c2, g v2)]⟩ := by
    simp [selectCols, hfc labName labs hm, hfc c1 v1 h1, hfc c2 v2 h2,
      List.mapM, List.mapM.loop]
  have hfind : List.find? (fun c => c.1 == labName)
      [(labName, g labs), (c1, g v1), (c2, g v2)] = some (labName, g labs) := by
    simp [List.find?]
  have hfilter : List.filter (fun c => !(c.1 == labName))
      [(labName, g labs), (c1, g v1), (c2, g v2)] = [(c1, g v1), (c2, g v2)] := by
    simp [List.filter_cons, hne1, hne2]
  have hmelt : meltId labName [(labName, g labs), (c1, g v1), (c2, g v2)] =
      some (((g labs).zip (g v1)).map (fun q => (q.1, c1, q.2)) ++
            (((g labs).zip (g v2)).map (fun q => (q.1, c2, q.2)) ++ [])) := by
    rw [meltId, hfind, Option.map_some', hfilter]
    rfl
  have hglabs : g labs = labs.filter p := applyMask_map_self p labs
  have hgv1 : g v1 = ((labs.zip v1).filter (fun q => p q.1)).map (fun q => q.2) :=
    applyMask_map p labs v1 hl1
  have hgv2 : g v2 = ((labs.zip v2).filter (fun q => p q.1)).map (fun q => q.2) :=
    applyMask_map p labs v2 hl2
  have hzip1 : (g labs).zip (g v1) = (labs.zip v1).filter (fun q => p q.1) := by
    rw [hglabs, hgv1, ← filterZip_map_fst p labs v1 hl1]
    exact zip_map_fst_snd_eq _
  have hzip2 : (g labs).zip (g v2) = (labs.zip v2).filter (fun q => p q.1) := by
    rw [hglabs, hgv2, ← filterZip_map_fst p labs v2 hl2]
    exact zip_map_fst_snd_eq _
  show (filterIsin df labName selected).bind _ = _
  rw [hfil]
  show (selectCols _ _).bind _ = _
  rw [hsel]
  show meltId labName _ = _
  rw [hmelt, hzip1, hzip2]
  simp

theorem comparisonLong_shape (labName : String) (df : Table) (c1 c2 : String)
    (selected : List Cell) (labs v1 v2 : List Cell)
    (hm : findCol df labName = some (labName, labs))
    (h1 : findCol df c1 = some (c1, v1))
    (h2 : findCol df c2 = some (c2, v2))
    (hne1 : c1 ≠ labName) (hne2 : c2 ≠ labName)
    (hl1 : v1.length = labs.length) (hl2 : v2.length = labs.length) :
    ∃ cdf, comparisonLong labName df c1 c2 selected = some cdf ∧
      cdf.map (fun r => r.2.1) =
        List.replicate (labs.filter (fun c => decide (c ∈ selected))).length c1 ++
        List.replicate (labs.filter (fun c => decide (c ∈ selected))).length c2 ∧
      cdf.map (fun r => r.1) =
        labs.filter (fun c => decide (c ∈ selected)) ++
        labs.filter (fun c => decide (c ∈ selected)) := by
  set p : Cell → Bool := fun c => decide (c ∈ selected) with hp
  refine ⟨_, comparisonLong_eq labName df c1 c2 selected labs v1 v2
    hm h1 h2 hne1 hne2 hl1 hl2, ?_, ?_⟩
  · rw [List.map_append, List.map_map, List.map_map]
    have e1 : ((labs.zip v1).filter (fun q => p q.1)).length
        = (labs.filter p).length := by
      rw [← filterZip_map_fst p labs v1 hl1, List.length_map]
    have e2 : ((labs.zip v2).filter (fun q => p q.1)).length
        = (labs.filter p).length := by
      rw [← filterZip_map_fst p labs v2 hl2, List.length_map]
    congr 1
    · rw [← e1]; exact List.map_const' _ c1
    · rw [← e2]; exact List.map_const' _ c2
  · rw [List.map_append, List.map_map, List.map_map]
    congr 1
    · exact filterZip_map_fst p labs v1 hl1
    · exact filterZip_map_fst p labs v2 hl2

theorem createComparisonIssuesChart_eq (df : Table) (c1 c2 : String)
    (selected : List Cell) (filtered : Table) (cdf : List (Cell × String × Cell))
    (hfil : filterIsin df "Most Important Problem" selected = some filtered)
    (hlong : comparisonLong "Most Important Problem" df c1 c2 selected = some cdf) :
    createComparisonIssuesChart df c1 c2 selected =
      some (significantIssues filtered c1 c2, cdf) := by
  simp [createComparisonIssuesChart, hfil, hlong]

/-- C2 (amended). Both two-country comparisons filter to the selected
labels and then unpivot; the long-format rows are ordered
country-major: all selected labels (in source row order) for the first
country, then all of them again for the second country. -/
theorem comparison_rows_country_major
    (df dfo : Table) (c1 c2 co1 co2 : String) (selected selectedo : List Cell)
    (labs v1 v2 labso w1 w2 : List Cell)
    (hm : findCol df "Most Important Problem" = some ("Most Important Problem", labs))
    (h1 : findCol df c1 = some (c1, v1))
    (h2 : findCol df c2 = some (c2, v2))
    (hne1 : c1 ≠ "Most Important Problem") (hne2 : c2 ≠ "Most Important Problem")
    (hl1 : v1.length = labs.length) (hl2 : v2.length = labs.length)
    (hmo : findCol dfo "Left-Right Orientation" = some ("Left-Right Orientation", labso))
    (ho1 : findCol dfo co1 = some (co1, w1))
    (ho2 : findCol dfo co2 = some (co2, w2))
    (hneo1 : co1 ≠ "Left-Right Orientation") (hneo2 : co2 ≠ "Left-Right Orientation")
    (hlo1 : w1.length = labso.length) (hlo2 : w2.length = labso.length) :
    (∃ anns cdf,
       createComparisonIssuesChart df c1 c2 selected = some (anns, cdf) ∧
       cdf.map (fun r => r.2.1) =
         List.replicate (labs.filter (fun c => decide (c ∈ selected))).length c1 ++
         List.replicate (labs.filter (fun c => decide (c ∈ selected))).length c2 ∧
       cdf.map (fun r => r.1) =
         labs.filter (fun c => decide (c ∈ selected)) ++
         labs.filter (fun c => decide (c ∈ selected))) ∧
    (∃ pdf,
       createComparisonOrientationChart dfo co1 co2 selectedo = some pdf ∧
       pdf.map (fun r => r.2.1) =
         List.replicate (labso.filter (fun c => decide (c ∈ selectedo))).length co1 ++
         List.replicate (labso.filter (fun c => decide (c ∈ selectedo))).length co2 ∧
       pdf.map (fun r => r.1) =
         labso.filter (fun c => decide (c ∈ selectedo)) ++
         labso.filter (fun c => decide (c ∈ selectedo))) := by
  constructor
  · obtain ⟨cdf, hlong, hcty, hlab⟩ := comparisonLong_shape "Most Important Problem"
      df c1 c2 selected labs v1 v2 hm h1 h2 hne1 hne2 hl1 hl2
    have hfil : filterIsin df "Most Important Problem" selected =
        some ⟨df.cols.map (fun c =>
          (c.1, applyMask (labs.map (fun x => decide (x ∈ selected))) c.2))⟩ := by
      rw [filterIsin, hm, Option.map_some']
    exact ⟨_, cdf, createComparisonIssuesChart_eq df c1 c2 selected _ cdf hfil hlong,
      hcty, hlab⟩
  · obtain ⟨pdf, hlong, hcty, hlab⟩ := comparisonLong_shape "Left-Right Orientation"
      dfo co1 co2 selectedo labso w1 w2 hmo ho1 ho2 hneo1 hneo2 hlo1 hlo2
    exact ⟨pdf, hlong, hcty, hlab⟩

/-- A small problems sheet for the comparison functions: two labels,
two countries. -/
def cmpTable : Table :=
  ⟨[("Most Important Problem", [Cell.str "A", Cell.str "B"]),
    ("X", [Cell.num (1/2), Cell.num (1/5)]),
    ("Y", [Cell.num (3/10), Cell.num (1/10)])]⟩

/-- Both labels of `cmpTable` selected. -/
def cmpSelected : List Cell := [Cell.str "A", Cell.str "B"]

/-- Both orientations of `sampleSheet2` selected. -/
def orientSelected : List Cell := [Cell.str "Left", Cell.str "Right"]

unseal Rat.inv Rat.mul Rat.add Rat.sub Rat.ofScientific in
/-- C2 counterexample: on a two-label, two-country table the melt
output is country-major (all labels for the first country, then all
labels for the second), not label-major as claimed. -/
theorem comparison_rows_not_label_major :
    createComparisonIssuesChart cmpTable "X" "Y" cmpSelected =
      some ([Cell.str "A"],
        [(Cell.str "A", "X", Cell.num (1/2)), (Cell.str "B", "X", Cell.num (1/5)),
         (Cell.str "A", "Y", Cell.num (3/10)), (Cell.str "B", "Y", Cell.num (1/10))]) ∧
    [(Cell.str "A", "X", Cell.num (1/2)), (Cell.str "B", "X", Cell.num (1/5)),
     (Cell.str "A", "Y", Cell.num (3/10)), (Cell.str "B", "Y", Cell.num (1/10))] ≠
    [(Cell.str "A", "X", Cell.num (1/2)), (Cell.str "A", "Y", Cell.num (3/10)),
     (Cell.str "B", "X", Cell.num (1/5)), (Cell.str "B", "Y", Cell.num (1/10))] :=
  ⟨by decide, by decide⟩

unseal Rat.inv Rat.mul Rat.add Rat.sub Rat.ofScientific in
/-- C2 (amended), witnessed on the two concrete sheets. -/
theorem comparison_rows_country_major_witness :
    (∃ anns cdf,
       createComparisonIssuesChart cmpTable "X" "Y" cmpSelected = some (anns, cdf) ∧
       cdf.map (fun r => r.2.1) = List.replicate 2 "X" ++ List.replicate 2 "Y" ∧
       cdf.map (fun r => r.1) =
         [Cell.str "A", Cell.str "B"] ++ [Cell.str "A", Cell.str "B"]) ∧
    (∃ pdf,
       createComparisonOrientationChart sampleSheet2 "DE" "FR" orientSelected =
         some pdf ∧
       pdf.map (fun r => r.2.1) = List.replicate 2 "DE" ++ List.replicate 2 "FR" ∧
       pdf.map (fun r => r.1) =
         [Cell.str "Left", Cell.str "Right"] ++ [Cell.str "Left", Cell.str "Right"]) :=
  comparison_rows_country_major cmpTable sampleSheet2 "X" "Y" "DE" "FR"
    cmpSelected orientSelected
    [Cell.str "A", Cell.str "B"]
    [Cell.num (1/2), Cell.num (1/5)] [Cell.num (3/10), Cell.num (1/10)]
    [Cell.str "Left", Cell.str "Right"]
    [Cell.num (2/5), Cell.num (3/5)] [Cell.num 55, Cell.num 45]
    rfl rfl rfl (by decide) (by decide) rfl rfl
    rfl rfl rfl (by decide) (by decide) rfl rfl

theorem comparisonLong_keys (labName : String) (df : Table) (c1 c2 : String)
    (selected : List Cell) (labs v1 v2 : List Cell)
    (hm : findCol df labName = some (labName, labs))
    (h1 : findCol df c1 = some (c1, v1))
    (h2 : findCol df c2 = some (c2, v2))
    (hne1 : c1 ≠ labName) (hne2 : c2 ≠ labName)
    (hl1 : v1.length = labs.length) (hl2 : v2.length = labs.length) :
    ∃ cdf, comparisonLong labName df c1 c2 selected = some cdf ∧
      cdf.map (fun r => (r.1, r.2.1)) =
        (labs.filter (fun c => decide (c ∈ selected))).map (fun l => (l, c1)) ++
        (labs.filter (fun c => decide (c ∈ selected))).map (fun l => (l, c2)) := by
  set p : Cell → Bool := fun c => decide (c ∈ selected) with hp
  refine ⟨_, comparisonLong_eq labName df c1 c2 selected labs v1 v2
    hm h1 h2 hne1 hne2 hl1 hl2, ?_⟩
  rw [List.map_append, List.map_map, List.map_map]
  congr 1
  · rw [← filterZip_map_fst p labs v1 hl1, List.map_map]
    rfl
  · rw [← filterZip_map_fst p labs v2 hl2, List.map_map]
    rfl

theorem keys_append_nodup {flabs : List Cell} {c1 c2 : String}
    (hnd : flabs.Nodup) (hcc : c1 ≠ c2) :
    (flabs.map (fun l => (l, c1)) ++ flabs.map (fun l => (l, c2))).Nodup := by
  apply List.Nodup.append
  · exact hnd.map (fun a b h => (Prod.ext_iff.mp h).1)
  · exact hnd.map (fun a b h => (Prod.ext_iff.mp h).1)
  · intro x hx1 hx2
    obtain ⟨l1, _, rfl⟩ := List.mem_map.mp hx1
    obtain ⟨l2, _, he⟩ := List.mem_map.mp hx2
    exact hcc ((Prod.ext_iff.mp he).2.symm)

/-- C3 (amended). For two distinct country columns the long-format
output has exactly two rows per selected table label and carries no
duplicate (label, country) pair; an equal country pair is still
accepted (it yields a result, with each pair duplicated). -/
theorem comparison_row_count_and_keys (df : Table) (c1 c2 : String)
    (selected : List Cell) (labs v1 v2 : List Cell)
    (hm : findCol df "Most Important Problem" = some ("Most Important Problem", labs))
    (h1 : findCol df c1 = some (c1, v1))
    (h2 : findCol df c2 = some (c2, v2))
    (hne1 : c1 ≠ "Most Important Problem") (hne2 : c2 ≠ "Most Important Problem")
    (hl1 : v1.length = labs.length) (hl2 : v2.length = labs.length)
    (hnd : labs.Nodup) (hcc : c1 ≠ c2) :
    ∃ anns cdf, createComparisonIssuesChart df c1 c2 selected = some (anns, cdf) ∧
      cdf.length = 2 * (labs.toFinset ∩ selected.toFinset).card ∧
      (cdf.map (fun r => (r.1, r.2.1))).Nodup := by
  set p : Cell → Bool := fun c => decide (c ∈ selected) with hp
  obtain ⟨cdf, hlong, hkeys⟩ := comparisonLong_keys "Most Important Problem"
    df c1 c2 selected labs v1 v2 hm h1 h2 hne1 hne2 hl1 hl2
  have hfil : filterIsin df "Most Important Problem" selected =
      some ⟨df.cols.map (fun c =>
        (c.1, applyMask (labs.map (fun x => decide (x ∈ selected))) c.2))⟩ := by
    rw [filterIsin, hm, Option.map_some']
  refine ⟨_, cdf, createComparisonIssuesChart_eq df c1 c2 selected _ cdf hfil hlong,
    ?_, ?_⟩
  · have hlen : cdf.length = (cdf.map (fun r => (r.1, r.2.1))).length :=
      (List.length_map _ _).symm
    rw [hlen, hkeys, List.length_append, List.length_map, List.length_map]
    have hcard : (labs.filter p).length = (labs.toFinset ∩ selected.toFinset).card := by
      have e1 : (labs.filter p).toFinset.card = (labs.filter p).length :=
        List.toFinset_card_of_nodup (hnd.filter p)
      have e2 : (labs.filter p).toFinset = labs.toFinset.filter (fun c => p c) :=
        List.toFinset_filter labs p
      have e3 : labs.toFinset.filter (fun c => p c) =
          labs.toFinset ∩ selected.toFinset := by
        rw [← Finset.filter_mem_eq_inter]
        apply Finset.filter_congr
        intro x _
        simp [hp]
      rw [← e1, e2, e3]
    rw [hcard]
    ring
  · rw [hkeys]
    exact keys_append_nodup (hnd.filter p) hcc

unseal Rat.inv Rat.mul Rat.add Rat.sub Rat.ofScientific in
/-- C3 counterexample: with the two countries equal (which the code
accepts), each (label, country) pair occurs twice in the output. -/
theorem comparison_equal_pair_duplicate_keys :
    createComparisonIssuesChart cmpTable "X" "X" cmpSelected =
      some ([],
        [(Cell.str "A", "X", Cell.num (1/2)), (Cell.str "B", "X", Cell.num (1/5)),
         (Cell.str "A", "X", Cell.num (1/2)), (Cell.str "B", "X", Cell.num (1/5))]) ∧
    ¬ (([(Cell.str "A", "X", Cell.num (1/2)), (Cell.str "B", "X", Cell.num (1/5)),
         (Cell.str "A", "X", Cell.num (1/2)), (Cell.str "B", "X", Cell.num (1/5))].map
          (fun r => (r.1, r.2.1))).Nodup) :=
  ⟨by decide, by decide⟩

unseal Rat.inv Rat.mul Rat.add Rat.sub Rat.ofScientific in
/-- C3 (amended), witnessed on the concrete two-label table. -/
theorem comparison_row_count_and_keys_witness :
    ∃ anns cdf, createComparisonIssuesChart cmpTable "X" "Y" cmpSelected =
        some (anns, cdf) ∧
      cdf.length =
        2 * ([Cell.str "A", Cell.str "B"].toFinset ∩ cmpSelected.toFinset).card ∧
      (cdf.map (fun r => (r.1, r.2.1))).Nodup :=
  comparison_row_count_and_keys cmpTable "X" "Y" cmpSelected
    [Cell.str "A", Cell.str "B"]
    [Cell.num (1/2), Cell.num (1/5)] [Cell.num (3/10), Cell.num (1/10)]
    rfl rfl rfl (by decide) (by decide) rfl rfl (by decide) (by decide)

theorem lookupProp_filtered (labName : String) (df : Table) (ci : String)
    (selected : List Cell) (labs vi : List Cell)
    (hm : findCol df labName = some (labName, labs))
    (hi : findCol df ci = some (ci, vi))
    (hli : vi.length = labs.length)
    (issue : Cell) :
    lookupProp ⟨df.cols.map (fun c =>
        (c.1, applyMask (labs.map (fun x => decide (x ∈ selected))) c.2))⟩
      labName issue ci =
      (((labs.zip vi).filter (fun q => decide (q.1 ∈ selected))).find?
        (fun q => q.1 == issue)).map (fun q => q.2) := by
  set p : Cell → Bool := fun c => decide (c ∈ selected) with hp
  set g : List Cell → List Cell := applyMask (labs.map p) with hg
  have hfl : findCol ⟨df.cols.map (fun c => (c.1, g c.2))⟩ labName =
      some (labName, g labs) := by
    rw [findCol_map_cells df.cols g labName]
    show (findCol df labName).map _ = _
    rw [hm, Option.map_some']
  have hfi : findCol ⟨df.cols.map (fun c => (c.1, g c.2))⟩ ci =
      some (ci, g vi) := by
    rw [findCol_map_cells df.cols g ci]
    show (findCol df ci).map _ = _
    rw [hi, Option.map_some']
  have hzip : (g labs).zip (g vi) = (labs.zip vi).filter (fun q => p q.1) := by
    rw [hg, applyMask_map_self p labs, applyMask_map p labs vi hli,
      ← filterZip_map_fst p labs vi hli]
    exact zip_map_fst_snd_eq _
  simp only [lookupProp, hfl, hfi]
  show (((g labs).zip (g vi)).find? (fun q => q.1 == issue)).bind
      (fun row => some row.2) = _
  rw [hzip]
  cases hfind : (labs.zip vi).filter (fun q => p q.1) |>.find? (fun q => q.1 == issue) with
  | none => simp [hfind]
  | some row => simp [hfind]

/-- C5. For each selected label with numeric proportions `a`, `b` in
the two countries, the significance annotation is emitted iff
`|a - b| > 1/10`, and the long-format output still carries the
unchanged proportions `a` and `b` for that label. -/
theorem significance_flag_iff (df : Table) (c1 c2 : String) (selected : List Cell)
    (labs v1 v2 : List Cell) (filtered : Table)
    (hm : findCol df "Most Important Problem" = some ("Most Important Problem", labs))
    (h1 : findCol df c1 = some (c1, v1))
    (h2 : findCol df c2 = some (c2, v2))
    (hne1 : c1 ≠ "Most Important Problem") (hne2 : c2 ≠ "Most Important Problem")
    (hl1 : v1.length = labs.length) (hl2 : v2.length = labs.length)
    (hfil : filterIsin df "Most Important Problem" selected = some filtered)
    (issue : Cell) (a b : ℚ)
    (ha : lookupProp filtered "Most Important Problem" issue c1 = some (Cell.num a))
    (hb : lookupProp filtered "Most Important Problem" issue c2 = some (Cell.num b))
    (hiss : issue ∈ labs.filter (fun c => decide (c ∈ selected))) :
    ∃ cdf, createComparisonIssuesChart df c1 c2 selected =
        some (significantIssues filtered c1 c2, cdf) ∧
      (issue ∈ significantIssues filtered c1 c2 ↔ |a - b| > 1 / 10) ∧
      (issue, c1, Cell.num a) ∈ cdf ∧ (issue, c2, Cell.num b) ∈ cdf := by
  set p : Cell → Bool := fun c => decide (c ∈ selected) with hp
  set g : List Cell → List Cell := applyMask (labs.map p) with hg
  have hfe := hfil
  rw [filterIsin, hm, Option.map_some'] at hfe
  have hfeq : filtered = ⟨df.cols.map (fun c => (c.1, g c.2))⟩ :=
    (Option.some.inj hfe).symm
  subst hfeq
  have hla := lookupProp_filtered "Most Important Problem" df c1 selected labs v1
    hm h1 hl1 issue
  have hlb := lookupProp_filtered "Most Important Problem" df c2 selected labs v2
    hm h2 hl2 issue
  rw [hla] at ha
  rw [hlb] at hb
  obtain ⟨rowa, hfra, hva⟩ : ∃ row,
      ((labs.zip v1).filter (fun q => p q.1)).find? (fun q => q.1 == issue) =
        some row ∧ row.2 = Cell.num a := by
    cases hfind : ((labs.zip v1).filter (fun q => p q.1)).find?
        (fun q => q.1 == issue) with
    | none => rw [hfind] at ha; cases ha
    | some row =>
      rw [hfind, Option.map_some'] at ha
      exact ⟨row, rfl, Option.some.inj ha⟩
  obtain ⟨rowb, hfrb, hvb⟩ : ∃ row,
      ((labs.zip v2).filter (fun q => p q.1)).find? (fun q => q.1 == issue) =
        some row ∧ row.2 = Cell.num b := by
    cases hfind : ((labs.zip v2).filter (fun q => p q.1)).find?
        (fun q => q.1 == issue) with
    | none => rw [hfind] at hb; cases hb
    | some row =>
      rw [hfind, Option.map_some'] at hb
      exact ⟨row, rfl, Option.some.inj hb⟩
  have hia : rowa.1 = issue := by
    have := List.find?_some hfra
    exact eq_of_beq this
  have hib : rowb.1 = issue := by
    have := List.find?_some hfrb
    exact eq_of_beq this
  have hma : rowa ∈ (labs.zip v1).filter (fun q => p q.1) :=
    List.mem_of_find?_eq_some hfra
  have hmb : rowb ∈ (labs.zip v2).filter (fun q => p q.1) :=
    List.mem_of_find?_eq_some hfrb
  refine ⟨_, createComparisonIssuesChart_eq df c1 c2 selected _ _ hfil
    (comparisonLong_eq "Most Important Problem" df c1 c2 selected labs v1 v2
      hm h1 h2 hne1 hne2 hl1 hl2), ?_, ?_, ?_⟩
  · have hfl : findCol ⟨df.cols.map (fun c => (c.1, g c.2))⟩ "Most Important Problem" =
        some ("Most Important Problem", g labs) := by
      rw [findCol_map_cells df.cols g _]
      show (findCol df _).map _ = _
      rw [hm, Option.map_some']
    have hglabs : g labs = labs.filter p := applyMask_map_self p labs
    rw [significantIssues, hfl]
    simp only [hglabs]
    rw [List.mem_filter]
    rw [hla, hlb, hfra, hfrb, Option.map_some', Option.map_some', hva, hvb]
    simp only [sigDiff, hiss, true_and, decide_eq_true_iff]
  · apply List.mem_append_left
    apply List.mem_map.mpr
    exact ⟨rowa, hma, by rw [hia, hva]⟩
  · apply List.mem_append_right
    apply List.mem_map.mpr
    exact ⟨rowb, hmb, by rw [hib, hvb]⟩

/-- A problems sheet realising the specification's significance
examples: proportions 0.40 vs 0.25 (fires) and 0.40 vs 0.35 (does
not). -/
def sigTable : Table :=
  ⟨[("Most Important Problem", [Cell.str "Inflation", Cell.str "Crime"]),
    ("A", [Cell.num (2/5), Cell.num (2/5)]),
    ("B", [Cell.num (1/4), Cell.num (7/20)])]⟩

/-- Both labels of `sigTable` selected. -/
def sigSelected : List Cell := [Cell.str "Inflation", Cell.str "Crime"]

unseal Rat.inv Rat.mul Rat.add Rat.sub Rat.ofScientific in
/-- C5, witnessed on the specification's two examples: `|0.40 - 0.25|`
fires the annotation and `|0.40 - 0.35|` does not. -/
theorem significance_flag_iff_witness :
    (∃ cdf, createComparisonIssuesChart sigTable "A" "B" sigSelected =
        some (significantIssues sigTable "A" "B", cdf) ∧
      (Cell.str "Inflation" ∈ significantIssues sigTable "A" "B" ↔
        |(2:ℚ)/5 - 1/4| > 1 / 10) ∧
      (Cell.str "Inflation", "A", Cell.num (2/5)) ∈ cdf ∧
      (Cell.str "Inflation", "B", Cell.num (1/4)) ∈ cdf) ∧
    (∃ cdf, createComparisonIssuesChart sigTable "A" "B" sigSelected =
        some (significantIssues sigTable "A" "B", cdf) ∧
      (Cell.str "Crime" ∈ significantIssues sigTable "A" "B" ↔
        |(2:ℚ)/5 - 7/20| > 1 / 10) ∧
      (Cell.str "Crime", "A", Cell.num (2/5)) ∈ cdf ∧
      (Cell.str "Crime", "B", Cell.num (7/20)) ∈ cdf) ∧
    Cell.str "Inflation" ∈ significantIssues sigTable "A" "B" ∧
    Cell.str "Crime" ∉ significantIssues sigTable "A" "B" :=
  ⟨significance_flag_iff sigTable "A" "B" sigSelected
      [Cell.str "Inflation", Cell.str "Crime"]
      [Cell.num (2/5), Cell.num (2/5)] [Cell.num (1/4), Cell.num (7/20)]
      sigTable rfl rfl rfl (by decide) (by decide) rfl rfl (by decide)
      (Cell.str "Inflation") (2/5) (1/4) (by decide) (by decide) (by decide),
   significance_flag_iff sigTable "A" "B" sigSelected
      [Cell.str "Inflation", Cell.str "Crime"]
      [Cell.num (2/5), Cell.num (2/5)] [Cell.num (1/4), Cell.num (7/20)]
      sigTable rfl rfl rfl (by decide) (by decide) rfl rfl (by decide)
      (Cell.str "Crime") (2/5) (7/20) (by decide) (by decide) (by decide),
   by decide, by decide⟩

theorem wideLookup_of_mem :
    ∀ (w : List ((Cell × String) × Cell)) (k : Cell × String) (v : Cell),
      (w.map Prod.fst).Nodup → (k, v) ∈ w → wideLookup w k = some v := by
  intro w
  induction w with
  | nil => intro k v _ h; cases h
  | cons e w ih =>
    intro k v hnd hmem
    rw [List.map_cons, List.nodup_cons] at hnd
    rcases List.mem_cons.mp hmem with rfl | hmem2
    · unfold wideLookup
      simp [List.find?_cons]
    · by_cases hk : e.1 = k
      · exfalso
        apply hnd.1
        rw [hk]
        exact List.mem_map.mpr ⟨(k, v), hmem2, rfl⟩
      · have hne : (e.1 == k) = false := beq_eq_false_iff_ne.mpr hk
        unfold wideLookup
        rw [List.find?_cons]
        simp only [hne]
        exact ih k v hnd.2 hmem2

/-- C7 (amended). For two distinct countries, pivoting the long-format
comparison output back to wide form succeeds and reproduces, for every
selected label and each of the two countries, exactly the per-country
proportion of the filtered source table. -/
theorem comparison_pivot_roundtrip (df : Table) (c1 c2 : String)
    (selected : List Cell) (labs v1 v2 : List Cell) (filtered : Table)
    (hm : findCol df "Most Important Problem" = some ("Most Important Problem", labs))
    (h1 : findCol df c1 = some (c1, v1))
    (h2 : findCol df c2 = some (c2, v2))
    (hne1 : c1 ≠ "Most Important Problem") (hne2 : c2 ≠ "Most Important Problem")
    (hl1 : v1.length = labs.length) (hl2 : v2.length = labs.length)
    (hnd : labs.Nodup) (hcc : c1 ≠ c2)
    (hfil : filterIsin df "Most Important Problem" selected = some filtered) :
    ∃ cdf w, createComparisonIssuesChart df c1 c2 selected =
        some (significantIssues filtered c1 c2, cdf) ∧
      pivotTable cdf = some w ∧
      ∀ issue, issue ∈ labs.filter (fun c => decide (c ∈ selected)) →
        ∀ c, c = c1 ∨ c = c2 →
          wideLookup w (issue, c) =
            lookupProp filtered "Most Important Problem" issue c := by
  set p : Cell → Bool := fun c => decide (c ∈ selected) with hp
  set g : List Cell → List Cell := applyMask (labs.map p) with hg
  have hfe := hfil
  rw [filterIsin, hm, Option.map_some'] at hfe
  have hfeq : filtered = ⟨df.cols.map (fun c => (c.1, g c.2))⟩ :=
    (Option.some.inj hfe).symm
  subst hfeq
  obtain ⟨cdf, hlong, hkeys⟩ := comparisonLong_keys "Most Important Problem"
    df c1 c2 selected labs v1 v2 hm h1 h2 hne1 hne2 hl1 hl2
  have hknd : (cdf.map (fun r => (r.1, r.2.1))).Nodup := by
    rw [hkeys]
    exact keys_append_nodup (hnd.filter p) hcc
  have hpiv : pivotTable cdf = some (cdf.map (fun r => ((r.1, r.2.1), r.2.2))) := by
    unfold pivotTable
    rw [if_pos hknd]
  refine ⟨cdf, _, createComparisonIssuesChart_eq df c1 c2 selected _ cdf hfil hlong,
    hpiv, ?_⟩
  have hwkeys : ((cdf.map (fun r => ((r.1, r.2.1), r.2.2))).map Prod.fst).Nodup := by
    rw [List.map_map]
    exact hknd
  have hcdf : cdf =
      (((labs.zip v1).filter (fun q => p q.1)).map (fun q => (q.1, c1, q.2))) ++
      (((labs.zip v2).filter (fun q => p q.1)).map (fun q => (q.1, c2, q.2))) := by
    have := comparisonLong_eq "Most Important Problem" df c1 c2 selected labs v1 v2
      hm h1 h2 hne1 hne2 hl1 hl2
    rw [hlong] at this
    exact Option.some.inj this
  intro issue hiss c hc
  -- pick the side of the pair
  have main : ∀ (ci : String) (vi : List Cell),
      findCol df ci = some (ci, vi) → vi.length = labs.length →
      (∀ q, q ∈ (labs.zip vi).filter (fun r => p r.1) →
        (q.1, ci, q.2) ∈ cdf) →
      wideLookup (cdf.map (fun r => ((r.1, r.2.1), r.2.2))) (issue, ci) =
        lookupProp ⟨df.cols.map (fun c => (c.1, g c.2))⟩
          "Most Important Problem" issue ci := by
    intro ci vi hci hli hsub
    rw [lookupProp_filtered "Most Important Problem" df ci selected labs vi
      hm hci hli issue]
    have hflabs : ((labs.zip vi).filter (fun q => p q.1)).map (fun q => q.1) =
        labs.filter p := filterZip_map_fst p labs vi hli
    have hex : ∃ q ∈ (labs.zip vi).filter (fun r => p r.1), (q.1 == issue) = true := by
      have : issue ∈ ((labs.zip vi).filter (fun q => p q.1)).map (fun q => q.1) := by
        rw [hflabs]; exact hiss
      obtain ⟨q, hq, hq2⟩ := List.mem_map.mp this
      exact ⟨q, hq, by simp [hq2]⟩
    obtain ⟨row, hrow⟩ := Option.isSome_iff_exists.mp (List.find?_isSome.mpr hex)
    have hpred : (row.1 == issue) = true :=
      List.find?_some (p := fun x : Cell × Cell => x.1 == issue) hrow
    have hri : row.1 = issue := eq_of_beq hpred
    have hrm : row ∈ (labs.zip vi).filter (fun r => p r.1) :=
      List.mem_of_find?_eq_some hrow
    rw [hrow, Option.map_some']
    have hmem : ((issue, ci), row.2) ∈ cdf.map (fun r => ((r.1, r.2.1), r.2.2)) := by
      apply List.mem_map.mpr
      refine ⟨(row.1, ci, row.2), hsub row hrm, ?_⟩
      rw [hri]
    exact wideLookup_of_mem _ (issue, ci) row.2 hwkeys hmem
  rcases hc with rfl | rfl
  · apply main c v1 h1 hl1
    intro q hq
    rw [hcdf]
    exact List.mem_append_left _ (List.mem_map.mpr ⟨q, hq, rfl⟩)
  · apply main c v2 h2 hl2
    intro q hq
    rw [hcdf]
    exact List.mem_append_right _ (List.mem_map.mpr ⟨q, hq, rfl⟩)

unseal Rat.inv Rat.mul Rat.add Rat.sub Rat.ofScientific in
/-- C7 counterexample: with the two countries equal (a selection the
interface permits), the long output carries duplicate (label, country)
pairs and the pivot back to wide form fails (pandas raises). -/
theorem pivot_fails_on_equal_countries :
    createComparisonIssuesChart cmpTable "X" "X" cmpSelected =
      some ([],
        [(Cell.str "A", "X", Cell.num (1/2)), (Cell.str "B", "X", Cell.num (1/5)),
         (Cell.str "A", "X", Cell.num (1/2)), (Cell.str "B", "X", Cell.num (1/5))]) ∧
    pivotTable
        [(Cell.str "A", "X", Cell.num (1/2)), (Cell.str "B", "X", Cell.num (1/5)),
         (Cell.str "A", "X", Cell.num (1/2)), (Cell.str "B", "X", Cell.num (1/5))] =
      none :=
  ⟨by decide, by decide⟩

unseal Rat.inv Rat.mul Rat.add Rat.sub Rat.ofScientific in
/-- C7 (amended), witnessed on the concrete two-label table with the
two distinct countries. -/
theorem comparison_pivot_roundtrip_witness :
    ∃ cdf w, createComparisonIssuesChart cmpTable "X" "Y" cmpSelected =
        some (significantIssues cmpTable "X" "Y", cdf) ∧
      pivotTable cdf = some w ∧
      ∀ issue, issue ∈ [Cell.str "A", Cell.str "B"].filter
          (fun c => decide (c ∈ cmpSelected)) →
        ∀ c, c = "X" ∨ c = "Y" →
          wideLookup w (issue, c) =
            lookupProp cmpTable "Most Important Problem" issue c :=
  comparison_pivot_roundtrip cmpTable "X" "Y" cmpSelected
    [Cell.str "A", Cell.str "B"]
    [Cell.num (1/2), Cell.num (1/5)] [Cell.num (3/10), Cell.num (1/10)]
    cmpTable rfl rfl rfl (by decide) (by decide) rfl rfl (by decide) (by decide)
    (by decide)
